import Mathlib

/-!
Verification development for the RxRadar medication-analysis service.

Python strings are modelled as `List Char` (`Str`); Python's `str.lower`,
`str.strip`, `str.title`, `str.capitalize`, `str.split(",")` and
`",".join` are modelled character-by-character.  Fallible calls (the
external text-generation provider, per-pair alert synthesis) are modelled
with `Except`; the provider client's credential rotation is modelled over
the list of responses the credentials would receive.
-/

/-- Python `str` as a list of characters. -/
abbrev Str := List Char

/-- Python `str.lower()` (ASCII case mapping, as exercised by the data). -/
def pyLower (s : Str) : Str := s.map Char.toLower

/-- Python `str.strip()`: drop whitespace from both ends. -/
def pyStrip (s : Str) : Str :=
  ((s.dropWhile Char.isWhitespace).reverse.dropWhile Char.isWhitespace).reverse

/-- Python `str.capitalize()`: first character upper-cased, rest lower-cased. -/
def pyCapitalize : Str → Str
  | [] => []
  | c :: cs => Char.toUpper c :: cs.map Char.toLower

/-- Helper for `pyTitle`: the Bool records whether the previous character was
a letter (Python title-cases a letter that follows a non-letter). -/
def pyTitleAux : Bool → Str → Str
  | _, [] => []
  | prevAlpha, c :: cs =>
    (if c.isAlpha then (if prevAlpha then c.toLower else c.toUpper) else c)
      :: pyTitleAux c.isAlpha cs

/-- Python `str.title()`. -/
def pyTitle (s : Str) : Str := pyTitleAux false s

/-- Python `s.split(",")`: split on every comma; `"".split(",") = [""]`. -/
def splitComma : Str → List Str
  | [] => [[]]
  | c :: cs =>
    if c = ',' then [] :: splitComma cs
    else
      match splitComma cs with
      | [] => [[c]]
      | t :: ts => (c :: t) :: ts

/-- Python `",".join(xs)`. -/
def joinComma : List Str → Str
  | [] => []
  | [x] => x
  | x :: y :: rest => x ++ ',' :: joinComma (y :: rest)

/-- Python `sep.join(xs)` for an arbitrary separator. -/
def joinWith (sep : Str) : List Str → Str
  | [] => []
  | [x] => x
  | x :: y :: rest => x ++ sep ++ joinWith sep (y :: rest)

/-- The unknown-ingredient sentinel written by the frontend
(`Frontend/app.py`, declined spell-check correction). -/
def UNKNOWN : Str := "UNKNOWN".toList

/-! ## Backend data model (`Backend/main.py`) -/

/-- `MedicationData` (pydantic model in `Backend/main.py`). -/
structure MedicationData where
  name : Str
  dosage : Str
  frequency : Str
  active_ingredients : List Str
deriving DecidableEq, Repr

/-- `AlertOutput` (pydantic model in `Backend/main.py`). -/
structure AlertOutput where
  drugs_involved : List Str
  alert_message : Str
deriving DecidableEq, Repr

/-- `Backend/main.py` lines 58-61: the flattened occurrence list
`[ai.lower() for med in med_input.medications for ai in med.active_ingredients
if ai != "UNKNOWN"]`. -/
def entered_active_ingredients (meds : List MedicationData) : List Str :=
  meds.flatMap fun med =>
    (med.active_ingredients.filter fun ai => ai ≠ UNKNOWN).map pyLower

/-- `itertools.combinations(l, 2)`: all pairs `(l[i], l[j])` with `i < j`,
in lexicographic index order. -/
def combinations2 {α : Type} : List α → List (α × α)
  | [] => []
  | x :: xs => (xs.map fun y => (x, y)) ++ combinations2 xs

/-- `Backend/main.py` lines 67-74: the classification loop over all
2-combinations, accumulating `duplicate_pairs` (components equal) and
`interaction_pairs` (components distinct, skipped when the pair is already
recorded in either order). -/
def classify_pairs :
    List (Str × Str) → List (Str × Str) → List (Str × Str) →
    List (Str × Str) × List (Str × Str)
  | [], dups, inters => (dups, inters)
  | p :: rest, dups, inters =>
    if p.1 = p.2 then
      classify_pairs rest (dups ++ [p]) inters
    else if p ∈ inters ∨ (p.2, p.1) ∈ inters then
      classify_pairs rest dups inters
    else
      classify_pairs rest dups (inters ++ [p])

/-- The `duplicate_pairs` list computed by `analyze_medications` from a
flattened occurrence list. -/
def duplicate_pairs (occ : List Str) : List (Str × Str) :=
  (classify_pairs (combinations2 occ) [] []).1

/-- The `interaction_pairs` list computed by `analyze_medications` from a
flattened occurrence list. -/
def interaction_pairs (occ : List Str) : List (Str × Str) :=
  (classify_pairs (combinations2 occ) [] []).2

/-- The comprehension `[m.name for m in med_input.medications if ing in
[ai.lower() for ai in m.active_ingredients]]` used both for duplicate
alerts (`meds_with_dup`) and for each side of an interaction alert. -/
def meds_with_ingredient (meds : List MedicationData) (ing : Str) : List Str :=
  (meds.filter fun m => ing ∈ m.active_ingredients.map pyLower).map
    MedicationData.name

/-- The templated duplicate-alert message (`Backend/main.py` line 88). -/
def duplicate_alert_message (ing : Str) : Str :=
  "You have entered medications with the same active ingredient:\x27".toList
    ++ pyTitle ing
    ++ "\x27. Please review your medications to avoid potential overdosing, dangerous side effects, and/or unecessary medication.".toList

/-- `Backend/main.py` lines 81-89: one alert per element of
`duplicate_pairs`; `list(set(meds_with_dup))` is modelled by `List.dedup`
(same membership and freedom from duplicates; a Python set fixes no
iteration order). -/
def duplicate_alerts (meds : List MedicationData) : List AlertOutput :=
  (duplicate_pairs (entered_active_ingredients meds)).map fun dupe =>
    { drugs_involved := (meds_with_ingredient meds dupe.1).dedup
      alert_message := duplicate_alert_message dupe.1 }

/-- `Backend/main.py` lines 98-117: the alert built for one interaction
pair, both sides of `drugs_involved` joined with `" / "`. -/
def interaction_alert (llm_alert : Str) (meds : List MedicationData)
    (inter : Str × Str) : AlertOutput :=
  { drugs_involved :=
      [joinWith " / ".toList (meds_with_ingredient meds inter.1),
       joinWith " / ".toList (meds_with_ingredient meds inter.2)]
    alert_message := llm_alert }

/-- `Backend/main.py` lines 92-117: the interaction loop.  `analyze`
abstracts `agent.analyze_interaction`; the endpoint wraps it in no
`try`/`except`, so a raised exception (`Except.error`) propagates and
aborts the loop. -/
def interaction_alerts_loop (analyze : Str → Str → Except Str Str)
    (meds : List MedicationData) : Except Str (List AlertOutput) :=
  (interaction_pairs (entered_active_ingredients meds)).mapM fun inter => do
    let llm_alert ← analyze inter.1 inter.2
    pure (interaction_alert llm_alert meds inter)

/-- The `/analyze_medications` endpoint (`Backend/main.py` lines 52-119):
duplicate alerts first, then the interaction alerts; an exception raised
while synthesizing any interaction pair aborts the whole request. -/
def analyze_medications (analyze : Str → Str → Except Str Str)
    (meds : List MedicationData) : Except Str (List AlertOutput) := do
  let inters ← interaction_alerts_loop analyze meds
  pure (duplicate_alerts meds ++ inters)

/-! ## Provider client and alert synthesis (`Backend/agent.py`) -/

/-- What one credential's request attempt comes back with: a network-level
failure (`requests.post` raises) or an HTTP response with a status code and
the extracted candidate text. -/
inductive GeminiResponse where
  | netFail
  | http (status : Nat) (text : Str)
deriving DecidableEq, Repr

/-- How a `call_gemini` invocation ends: the text of the first 200 response,
a propagated exception, or falling off the credential loop (Python's
implicit `return None`). -/
inductive GeminiOutcome where
  | ok (text : Str)
  | exn
  | noResult
deriving DecidableEq, Repr

/-- `call_gemini` (`Backend/agent.py` lines 127-144): iterate over the
configured credentials in order; return the first 200 response's text; a
non-200 response moves on to the next credential; a network-level failure
raises out of the loop; exhausting the list returns `None`.  The input list
holds, per credential in configured order, the response that credential's
single attempt would receive. -/
def call_gemini : List GeminiResponse → GeminiOutcome
  | [] => .noResult
  | .netFail :: _ => .exn
  | .http status text :: rest =>
    if status = 200 then .ok text else call_gemini rest

/-- One row of `baseline_model_data.csv` as read by `agent.py`. -/
structure InteractionRow where
  min_drug_name : Str
  max_drug_name : Str
  severity : Str
  description : Str
  atc_group_context : Str
  min_drug_class : Str
  max_drug_class : Str
  min_mechanism_of_action : Str
  max_mechanism_of_action : Str
  min_route_of_elimination : Str
  max_route_of_elimination : Str
  min_toxicity : Str
  max_toxicity : Str
  effects_summary : Str
deriving DecidableEq, Repr

/-- The `"Information not available"` sentinel in the baseline data. -/
def INFO_NA : Str := "Information not available".toList

/-- The row mask of `generate_geriatric_alert` (`Backend/agent.py` lines
41-46): the row matches the pair in either orientation, case-insensitively. -/
def baseline_match (drug1 drug2 : Str) (row : InteractionRow) : Bool :=
  decide ((pyLower row.min_drug_name = pyLower drug1 ∧
           pyLower row.max_drug_name = pyLower drug2) ∨
          (pyLower row.min_drug_name = pyLower drug2 ∧
           pyLower row.max_drug_name = pyLower drug1))

/-- The context string built on a knowledge-base miss
(`Backend/agent.py` line 49). -/
def no_known_message (drug1 drug2 : Str) : Str :=
  "No known interaction found between ".toList ++ pyTitle drug1
    ++ " and ".toList ++ pyTitle drug2 ++ " in the system.".toList

/-- The `alert_lines` built for a matching row
(`Backend/agent.py` lines 51-97). -/
def interaction_alert_lines (row : InteractionRow) : List Str :=
  let min_drug := row.min_drug_name
  let max_drug := row.max_drug_name
  let severity := pyCapitalize row.severity
  ["**Interaction Alert: ".toList ++ min_drug ++ " + ".toList ++ max_drug
      ++ "**".toList]
  ++ [if pyLower severity = "unknown".toList then
        "- Severity: Not formally determined".toList
      else
        "- Severity Level: **".toList ++ severity ++ "**".toList]
  ++ (if row.description ≠ INFO_NA then
        ["\n🧾 What this means: ".toList ++ row.description] else [])
  ++ (if row.atc_group_context ≠ INFO_NA then
        ["\n🧪 These drugs belong to the same treatment group: ".toList
          ++ row.atc_group_context] else [])
  ++ ["\n🔍 ".toList ++ min_drug ++ " is a type of ".toList
        ++ row.min_drug_class]
  ++ ["🔍 ".toList ++ max_drug ++ " is a type of ".toList
        ++ row.max_drug_class]
  ++ (if row.min_mechanism_of_action ≠ INFO_NA then
        ["\n🧬 ".toList ++ min_drug ++ " works by: ".toList
          ++ row.min_mechanism_of_action] else [])
  ++ (if row.max_mechanism_of_action ≠ INFO_NA then
        ["🧬 ".toList ++ max_drug ++ " works by: ".toList
          ++ row.max_mechanism_of_action] else [])
  ++ (if row.min_route_of_elimination ≠ INFO_NA then
        ["\n🚽 ".toList ++ min_drug ++ " leaves the body through: ".toList
          ++ row.min_route_of_elimination] else [])
  ++ (if row.max_route_of_elimination ≠ INFO_NA then
        ["🚽 ".toList ++ max_drug ++ " leaves the body through: ".toList
          ++ row.max_route_of_elimination] else [])
  ++ (if row.min_toxicity ≠ INFO_NA then
        ["\n☠️ Toxicity concern for ".toList ++ min_drug ++ ": ".toList
          ++ row.min_toxicity] else [])
  ++ (if row.max_toxicity ≠ INFO_NA then
        ["☠️ Toxicity concern for ".toList ++ max_drug ++ ": ".toList
          ++ row.max_toxicity] else [])
  ++ (if row.effects_summary ≠ INFO_NA then
        ["\n⚠️ Reported Side Effects:\n".toList ++ row.effects_summary]
      else [])
  ++ ["\n👩‍⚕️ Please consult your doctor or pharmacist before taking these medications together.".toList]

/-- `generate_geriatric_alert` (`Backend/agent.py` lines 30-99):
split the comma-separated input, require exactly two names, look the pair
up in the baseline data (first matching row), and build either the
"no known interaction" context or the structured alert block. -/
def generate_geriatric_alert (baseline_df : List InteractionRow)
    (drugs : Str) : Str :=
  match (splitComma drugs).map pyStrip with
  | [drug1, drug2] =>
    match baseline_df.find? (baseline_match drug1 drug2) with
    | none => no_known_message drug1 drug2
    | some row => joinWith "\n".toList (interaction_alert_lines row)
  | _ => "Please provide exactly two drug names, separated by a comma.".toList

/-- The composed prompt of `analyze_interaction`
(`Backend/agent.py` lines 109-123), embedding the context string. -/
def interaction_prompt (context : Str) : Str :=
  "\n#Task\nYou are a clear, calm, and professional assistant who explains drug interactions in a way that is easy for older adults to understand.\n#Step1\nUse this information to get the medical interaction details in your response: ".toList
  ++ context
  ++ "\n#Step2\nThink step-by-step:\n- What is the severity?\n- What does each drug do?\n- What are the important mechanisms, risks, or side effects?\n#Step3\nSummarize this in plain language, starting with the key risk.\nAvoid casual or conversational fillers. Use short, clear sentences. Do not start with \x27Okay\x27 or \x27Let\x27s break it down.\x27\nFinish with a gentle reminder to talk to a healthcare provider.\n".toList

/-- `analyze_interaction` (`Backend/agent.py` lines 101-125): clean the two
names, build the context from the baseline data, compose the prompt, and
hand it to the provider client (`composer` abstracts `call_gemini`, which
may raise). -/
def analyze_interaction (baseline_df : List InteractionRow)
    (composer : Str → Except Str Str) (drug1 drug2 : Str) :
    Except Str Str :=
  let drug1_clean := pyLower (pyStrip drug1)
  let drug2_clean := pyLower (pyStrip drug2)
  let context := generate_geriatric_alert baseline_df
    (drug1_clean ++ ", ".toList ++ drug2_clean)
  composer (interaction_prompt context)

/-- One element of the result list of `analyze_all_pairs`
(`Backend/agent.py` lines 151-165). -/
structure PairResult where
  pair : Str
  alert_type : Str
  drugs_involved : List Str
  alert_message : Str
deriving DecidableEq, Repr

/-- The per-pair body of `analyze_all_pairs`: the `try`/`except` around one
synthesis call, producing an interaction result or an error-tagged result. -/
def pair_result (synth : Str → Str → Except Str Str) (drug1 drug2 : Str) :
    PairResult :=
  match synth drug1 drug2 with
  | .ok t =>
    { pair := drug1 ++ " + ".toList ++ drug2
      alert_type := "Interaction".toList
      drugs_involved := [drug1, drug2]
      alert_message := t }
  | .error e =>
    { pair := drug1 ++ " + ".toList ++ drug2
      alert_type := "Error".toList
      drugs_involved := [drug1, drug2]
      alert_message := "Error analyzing: ".toList ++ e }

/-- `analyze_all_pairs` (`Backend/agent.py` lines 146-166): the nested
`i < j` loops over the medication list, one result appended per pair. -/
def analyze_all_pairs (synth : Str → Str → Except Str Str) :
    List Str → List PairResult
  | [] => []
  | d1 :: rest =>
    (rest.map fun d2 => pair_result synth d1 d2) ++ analyze_all_pairs synth rest

/-! ## Persistence round-trip (`Backend/main.py` lines 215-263) -/

/-- One `UserMedication` row as written by `save_user_medications`. -/
structure UserMedicationRow where
  medication_name : Str
  dosage : Str
  frequency : Str
  active_ingredients : Str
deriving DecidableEq, Repr

/-- `save_user_medications` (`Backend/main.py` lines 216-243): previous rows
for the user are deleted and one row is inserted per medication, in order,
the ingredient list serialized with `",".join`. -/
def save_user_medications (meds : List MedicationData) :
    List UserMedicationRow :=
  meds.map fun med =>
    { medication_name := med.name
      dosage := med.dosage
      frequency := med.frequency
      active_ingredients := joinComma med.active_ingredients }

/-- `load_user_medications` (`Backend/main.py` lines 250-263): one
`MedicationData` per stored row, the ingredient string split on `","`,
with an empty (falsy) string mapped to the empty list. -/
def load_user_medications (rows : List UserMedicationRow) :
    List MedicationData :=
  rows.map fun um =>
    { name := um.medication_name
      dosage := um.dosage
      frequency := um.frequency
      active_ingredients :=
        if um.active_ingredients = [] then []
        else splitComma um.active_ingredients }

/-! ## Frontend name resolution (`Frontend/app.py`) -/

/-- One option of the brand disambiguation map
(`data/brand_disambiguation.json`). -/
structure BrandOption where
  display_name : Str
  active_ingredients : List Str
deriving DecidableEq, Repr

/-- `BRAND_DISAMBIGUATION_MAP`: brand key (lower-cased at load) to its
options.  The Python dict is modelled as an ordered association list with
distinct keys; `items()` iterates it in this order. -/
abbrev BrandMap := List (Str × List BrandOption)

/-- One entry of `st.session_state.medications`. -/
structure MedEntry where
  name : Str
  dosage : Str
  frequency : Str
  active_ingredients : List Str
  status : Str
deriving DecidableEq, Repr

/-- What the checking-inputs pass records for one entry besides the updated
entry itself: nothing, a disambiguation candidate, or a spell-check
candidate. -/
inductive ResolveFlag where
  | noFlag
  | disamb (options : List BrandOption)
  | spell (suggestions : List Str)
deriving DecidableEq, Repr

/-- The placeholder suggestion used when the fuzzy matcher returns nothing
(`Frontend/app.py` line 566). -/
def spell_check_sentinel : Str :=
  "Unrecognized medication spelling. Please check and retype this medication.".toList

/-- The direct display-name scan (`Frontend/app.py` lines 513-523): the
nested loops over `BRAND_DISAMBIGUATION_MAP.items()` and each option list,
breaking at the first option whose display name equals the typed name
case-insensitively. -/
def find_direct_match (bm : BrandMap) (typed : Str) : Option BrandOption :=
  bm.findSome? fun kv =>
    kv.2.find? fun option => decide (typed = pyLower option.display_name)

/-- The per-entry body of the checking-inputs resolution pass
(`Frontend/app.py` lines 502-570).  `bm` is the brand map, `known` the
generic-name list (`ALL_KNOWN_NAMES_FOR_SPELLCHECK`), and `suggest`
abstracts `difflib.get_close_matches` over that list.  Resolution order:
skip resolved or blank entries, then direct display-name match, brand-key
match (disambiguation when several options), generic-name match, fuzzy
suggestion. -/
def check_entry (bm : BrandMap) (known : List Str) (suggest : Str → List Str)
    (med : MedEntry) : MedEntry × ResolveFlag :=
  if med.status = "resolved".toList then (med, .noFlag)
  else
    let typed_raw := med.name
    let typed := pyLower (pyStrip typed_raw)
    if pyStrip typed_raw = [] then (med, .noFlag)
    else
      match find_direct_match bm typed with
      | some option =>
        ({ med with
            name := option.display_name
            active_ingredients := option.active_ingredients
            status := "resolved".toList }, .noFlag)
      | none =>
        match bm.lookup typed with
        | some options =>
          if options.length > 1 then
            ({ med with status := "needs_disambiguation".toList },
             .disamb options)
          else
            match options with
            | [single] =>
              ({ med with
                  name := single.display_name
                  active_ingredients := single.active_ingredients
                  status := "resolved".toList }, .noFlag)
            | _ => (med, .noFlag)
        | none =>
          if typed ∈ known.map pyLower then
            ({ med with
                active_ingredients := [typed_raw]
                status := "resolved".toList }, .noFlag)
          else
            let suggestions := suggest typed
            ({ med with status := "needs_spell_check".toList },
             .spell (if suggestions = [] then [spell_check_sentinel]
                     else suggestions))

/-- The checking-inputs resolution pass over the whole entry list
(`Frontend/app.py` lines 502-570): each entry is rewritten in place by its
own iteration. -/
def checking_inputs_pass (bm : BrandMap) (known : List Str)
    (suggest : Str → List Str) (meds : List MedEntry) : List MedEntry :=
  meds.map fun med => (check_entry bm known suggest med).1

/-! ## Helper notions used by the theorems -/

/-- Keep the first combination carrying each unordered pair key, dropping
later combinations equal to it in either orientation. -/
def first_key_dedup : List (Str × Str) → List (Str × Str)
  | [] => []
  | p :: ps =>
    p :: first_key_dedup (ps.filter fun q => decide ¬(q = p ∨ q = (p.2, p.1)))
termination_by l => l.length
decreasing_by
  simp only [List.length_cons]
  exact Nat.lt_succ_of_le (List.length_filter_le _ _)

/-! ## Character-level facts about the string model -/

theorem toNat_ofNat_valid (n : Nat) (h : n.isValidChar) :
    (Char.ofNat n).toNat = n := by
  simp [Char.ofNat, h, Char.ofNatAux, Char.toNat]
  rfl

theorem char_toNat_injective {a b : Char} (h : a.toNat = b.toNat) : a = b := by
  have ha := Char.ofNat_toNat a
  have hb := Char.ofNat_toNat b
  rw [← ha, ← hb, h]

theorem isWhitespace_iff (c : Char) : c.isWhitespace = true ↔
    c.toNat = 32 ∨ c.toNat = 9 ∨ c.toNat = 13 ∨ c.toNat = 10 := by
  unfold Char.isWhitespace
  simp only [Bool.or_eq_true, decide_eq_true_eq]
  constructor
  · rintro (((h | h) | h) | h) <;> subst h <;> decide
  · rintro (h | h | h | h)
    · exact Or.inl (Or.inl (Or.inl (char_toNat_injective (by rw [h]; rfl))))
    · exact Or.inl (Or.inl (Or.inr (char_toNat_injective (by rw [h]; rfl))))
    · exact Or.inl (Or.inr (char_toNat_injective (by rw [h]; rfl)))
    · exact Or.inr (char_toNat_injective (by rw [h]; rfl))

theorem whitespace_toLower (c : Char) :
    (Char.toLower c).isWhitespace = c.isWhitespace := by
  unfold Char.toLower
  simp only []
  by_cases h : c.toNat ≥ 65 ∧ c.toNat ≤ 90
  · rw [if_pos h]
    have hv : (c.toNat + 32).isValidChar := by
      constructor
      omega
    have h2 := toNat_ofNat_valid (c.toNat + 32) hv
    have hl : (Char.ofNat (c.toNat + 32)).isWhitespace = false := by
      rw [Bool.eq_false_iff]
      intro hw
      rw [isWhitespace_iff] at hw
      omega
    have hr : c.isWhitespace = false := by
      rw [Bool.eq_false_iff]
      intro hw
      rw [isWhitespace_iff] at hw
      omega
    rw [hl, hr]
  · rw [if_neg h]

theorem toLower_ne_U (c : Char) : Char.toLower c ≠ 'U' := by
  unfold Char.toLower
  simp only []
  by_cases h : c.toNat ≥ 65 ∧ c.toNat ≤ 90
  · rw [if_pos h]
    intro hc
    have hv : (c.toNat + 32).isValidChar := by
      constructor
      omega
    have h2 := toNat_ofNat_valid (c.toNat + 32) hv
    rw [hc] at h2
    have h85 : ('U' : Char).toNat = 85 := rfl
    omega
  · rw [if_neg h]
    intro hc
    subst hc
    exact h (by decide)

theorem pyLower_ne_UNKNOWN (s : Str) : pyLower s ≠ UNKNOWN := by
  intro h
  have hU : UNKNOWN = 'U' :: "NKNOWN".toList := rfl
  cases s with
  | nil => rw [hU] at h; exact List.noConfusion h
  | cons c cs =>
    rw [hU] at h
    unfold pyLower at h
    rw [List.map_cons] at h
    exact toLower_ne_U c (List.head_eq_of_cons_eq h)

/-! ## Pair-classifier lemmas -/

theorem mem_combinations2 {α : Type} {p : α × α} {l : List α}
    (h : p ∈ combinations2 l) : p.1 ∈ l ∧ p.2 ∈ l := by
  induction l with
  | nil => simp [combinations2] at h
  | cons x xs ih =>
    rw [combinations2, List.mem_append] at h
    rcases h with h | h
    · rw [List.mem_map] at h
      obtain ⟨y, hy, hp⟩ := h
      subst hp
      exact ⟨List.mem_cons_self x xs, List.mem_cons_of_mem x hy⟩
    · obtain ⟨h1, h2⟩ := ih h
      exact ⟨List.mem_cons_of_mem x h1, List.mem_cons_of_mem x h2⟩

theorem classify_pairs_fst (pairs dups inters : List (Str × Str)) :
    (classify_pairs pairs dups inters).1 =
      dups ++ pairs.filter fun p => decide (p.1 = p.2) := by
  induction pairs generalizing dups inters with
  | nil => simp [classify_pairs]
  | cons p rest ih =>
    rw [classify_pairs]
    by_cases h : p.1 = p.2
    · rw [if_pos h, ih, List.filter_cons_of_pos (by simpa using h), List.append_assoc]
      rfl
    · rw [if_neg h, List.filter_cons_of_neg (by simpa using h)]
      by_cases h2 : p ∈ inters ∨ (p.2, p.1) ∈ inters
      · rw [if_pos h2, ih]
      · rw [if_neg h2, ih]

theorem classify_pairs_snd (pairs dups inters : List (Str × Str)) :
    (classify_pairs pairs dups inters).2 =
      inters ++ first_key_dedup (pairs.filter fun q =>
        decide (q.1 ≠ q.2 ∧ q ∉ inters ∧ (q.2, q.1) ∉ inters)) := by
  induction pairs generalizing dups inters with
  | nil => simp [classify_pairs, first_key_dedup]
  | cons p rest ih =>
    rw [classify_pairs]
    by_cases h : p.1 = p.2
    · rw [if_pos h, ih, List.filter_cons_of_neg (by simp [h])]
    · by_cases h2 : p ∈ inters ∨ (p.2, p.1) ∈ inters
      · rw [if_neg h, if_pos h2, ih, List.filter_cons_of_neg (by simp; tauto)]
      · push_neg at h2
        rw [if_neg h, if_neg (by push_neg; exact h2), ih,
          List.filter_cons_of_pos (by simp [h, h2.1, h2.2])]
        rw [first_key_dedup, List.filter_filter]
        rw [List.append_assoc, List.singleton_append]
        congr 2
        congr 1
        apply List.filter_congr
        intro q _
        rw [← Bool.decide_and]
        rw [decide_eq_decide]
        simp only [List.mem_append, List.mem_singleton]
        constructor
        · rintro ⟨hq, hq1, hq2⟩
          push_neg at hq1 hq2
          refine ⟨?_, hq, hq1.1, hq2.1⟩
          rintro (he | he)
          · exact hq1.2 he
          · exact hq2.2 (by rw [he])
        · rintro ⟨hne, hq, hq1, hq2⟩
          push_neg at hne
          refine ⟨hq, ?_, ?_⟩
          · push_neg
            exact ⟨hq1, hne.1⟩
          · push_neg
            refine ⟨hq2, ?_⟩
            intro he
            apply hne.2
            have h3 := congrArg (fun r : Str × Str => (r.2, r.1)) he
            simpa using h3

theorem first_key_dedup_subset (l : List (Str × Str)) :
    first_key_dedup l ⊆ l := by
  match l with
  | [] => simp [first_key_dedup]
  | p :: ps =>
    rw [first_key_dedup]
    intro q hq
    rcases List.mem_cons.mp hq with h | h
    · exact h ▸ List.mem_cons_self _ _
    · have h2 := first_key_dedup_subset
        (ps.filter fun q => decide ¬(q = p ∨ q = (p.2, p.1))) h
      exact List.mem_cons_of_mem _ (List.mem_of_mem_filter h2)
termination_by l.length
decreasing_by
  simp only [List.length_cons]
  exact Nat.lt_succ_of_le (List.length_filter_le _ _)

theorem first_key_dedup_pairwise (l : List (Str × Str)) :
    (first_key_dedup l).Pairwise fun p q => q ≠ p ∧ q ≠ (p.2, p.1) := by
  match l with
  | [] => simp [first_key_dedup]
  | p :: ps =>
    rw [first_key_dedup, List.pairwise_cons]
    constructor
    · intro q hq
      have h2 := first_key_dedup_subset _ hq
      have h3 := List.of_mem_filter h2
      simpa using h3
    · exact first_key_dedup_pairwise _
termination_by l.length
decreasing_by
  simp only [List.length_cons]
  exact Nat.lt_succ_of_le (List.length_filter_le _ _)

theorem first_key_dedup_complete (l : List (Str × Str)) :
    ∀ p ∈ l, ∃ q ∈ first_key_dedup l, q = p ∨ q = (p.2, p.1) := by
  match l with
  | [] => intro p hp; exact absurd hp (List.not_mem_nil p)
  | hd :: tl =>
    intro p hp
    rw [first_key_dedup]
    rcases List.mem_cons.mp hp with h | h
    · exact ⟨hd, List.mem_cons_self _ _, Or.inl h.symm⟩
    · by_cases hk : p = hd ∨ p = (hd.2, hd.1)
      · refine ⟨hd, List.mem_cons_self _ _, ?_⟩
        rcases hk with hk | hk
        · exact Or.inl hk.symm
        · right
          rw [hk]
      · have hf : p ∈ tl.filter fun q => decide ¬(q = hd ∨ q = (hd.2, hd.1)) :=
          List.mem_filter.mpr ⟨h, by simpa using hk⟩
        obtain ⟨q, hq1, hq2⟩ := first_key_dedup_complete _ p hf
        exact ⟨q, List.mem_cons_of_mem _ hq1, hq2⟩
termination_by l.length
decreasing_by
  simp only [List.length_cons]
  exact Nat.lt_succ_of_le (List.length_filter_le _ _)

theorem interaction_pairs_eq (occ : List Str) :
    interaction_pairs occ =
      first_key_dedup ((combinations2 occ).filter fun p => decide (p.1 ≠ p.2)) := by
  unfold interaction_pairs
  rw [classify_pairs_snd, List.nil_append]
  congr 1
  apply List.filter_congr
  intro q _
  simp

theorem duplicate_pairs_eq (occ : List Str) :
    duplicate_pairs occ =
      (combinations2 occ).filter fun p => decide (p.1 = p.2) := by
  unfold duplicate_pairs
  rw [classify_pairs_fst, List.nil_append]

/-- Claim C4 (confirmed): the classifier examines all unordered
2-combinations of occurrences; a combination with equal (case-normalized)
ingredient strings is recorded as a duplicate occurrence and never as an
interaction pair; a combination with distinct ingredients is added to the
interaction-pair list only if its unordered key is not already present, so
each distinct unordered ingredient pair appears at most once, with the
first occurrence winning. -/
theorem pair_classifier_spec (occ : List Str) :
    duplicate_pairs occ =
      ((combinations2 occ).filter fun p => decide (p.1 = p.2)) ∧
    interaction_pairs occ =
      first_key_dedup ((combinations2 occ).filter fun p => decide (p.1 ≠ p.2)) ∧
    (∀ p ∈ interaction_pairs occ, p.1 ≠ p.2) ∧
    ((interaction_pairs occ).Pairwise fun p q => q ≠ p ∧ q ≠ (p.2, p.1)) ∧
    (∀ p ∈ combinations2 occ, p.1 ≠ p.2 →
      ∃ q ∈ interaction_pairs occ, q = p ∨ q = (p.2, p.1)) := by
  refine ⟨duplicate_pairs_eq occ, interaction_pairs_eq occ, ?_, ?_, ?_⟩
  · intro p hp
    rw [interaction_pairs_eq] at hp
    have h1 := first_key_dedup_subset _ hp
    have h2 := List.of_mem_filter h1
    simpa using h2
  · rw [interaction_pairs_eq]
    exact first_key_dedup_pairwise _
  · intro p hp hne
    rw [interaction_pairs_eq]
    exact first_key_dedup_complete _ p
      (List.mem_filter.mpr ⟨hp, by simpa using hne⟩)

/-- Witness for `pair_classifier_spec` at the occurrence list
`["a", "b", "a"]`. -/
theorem pair_classifier_spec_witness :
    ("a".toList, "b".toList).1 ≠ ("a".toList, "b".toList).2 ∧
    (∃ q ∈ interaction_pairs ["a".toList, "b".toList, "a".toList],
      q = ("b".toList, "a".toList) ∨ q = ("a".toList, "b".toList)) :=
  ⟨(pair_classifier_spec ["a".toList, "b".toList, "a".toList]).2.2.1
      ("a".toList, "b".toList) (by decide),
   (pair_classifier_spec ["a".toList, "b".toList, "a".toList]).2.2.2.2
      ("b".toList, "a".toList) (by decide) (by decide)⟩

theorem mem_entered_active_ingredients {meds : List MedicationData} {x : Str}
    (h : x ∈ entered_active_ingredients meds) :
    ∃ med ∈ meds, ∃ ai ∈ med.active_ingredients, ai ≠ UNKNOWN ∧ x = pyLower ai := by
  unfold entered_active_ingredients at h
  rw [List.mem_flatMap] at h
  obtain ⟨med, hmed, hx⟩ := h
  rw [List.mem_map] at hx
  obtain ⟨ai, hai, hlow⟩ := hx
  have h2 := List.mem_filter.mp hai
  exact ⟨med, hmed, ai, h2.1, by simpa using h2.2, hlow.symm⟩

theorem not_UNKNOWN_of_mem_entered {meds : List MedicationData} {x : Str}
    (h : x ∈ entered_active_ingredients meds) : x ≠ UNKNOWN := by
  obtain ⟨med, _, ai, _, _, hx⟩ := mem_entered_active_ingredients h
  rw [hx]
  exact pyLower_ne_UNKNOWN ai

/-- Claim C9 (confirmed): any active ingredient literally equal to the
sentinel `"UNKNOWN"` is excluded from the flattened occurrence list before
pairing, so no 2-combination, duplicate pair or interaction pair has the
sentinel as a component. -/
theorem unknown_sentinel_excluded (meds : List MedicationData) :
    UNKNOWN ∉ entered_active_ingredients meds ∧
    (∀ p ∈ combinations2 (entered_active_ingredients meds),
      p.1 ≠ UNKNOWN ∧ p.2 ≠ UNKNOWN) ∧
    (∀ p ∈ duplicate_pairs (entered_active_ingredients meds),
      p.1 ≠ UNKNOWN ∧ p.2 ≠ UNKNOWN) ∧
    (∀ p ∈ interaction_pairs (entered_active_ingredients meds),
      p.1 ≠ UNKNOWN ∧ p.2 ≠ UNKNOWN) := by
  have hcomb : ∀ p ∈ combinations2 (entered_active_ingredients meds),
      p.1 ≠ UNKNOWN ∧ p.2 ≠ UNKNOWN := by
    intro p hp
    obtain ⟨h1, h2⟩ := mem_combinations2 hp
    exact ⟨not_UNKNOWN_of_mem_entered h1, not_UNKNOWN_of_mem_entered h2⟩
  refine ⟨fun h => not_UNKNOWN_of_mem_entered h rfl, hcomb, ?_, ?_⟩
  · intro p hp
    rw [duplicate_pairs_eq] at hp
    exact hcomb p (List.mem_of_mem_filter hp)
  · intro p hp
    rw [interaction_pairs_eq] at hp
    exact hcomb p (List.mem_of_mem_filter (first_key_dedup_subset _ hp))

/-- Witness for `unknown_sentinel_excluded` at a list containing a
sentinel-carrying entry and a real duplicate pair. -/
theorem unknown_sentinel_excluded_witness :
    (("aspirin".toList, "aspirin".toList) :
        Str × Str).1 ≠ UNKNOWN ∧
    ("aspirin".toList, "aspirin".toList).2 ≠ UNKNOWN :=
  (unknown_sentinel_excluded
      [⟨"Med1".toList, [], [], ["aspirin".toList, UNKNOWN]⟩,
       ⟨"Med2".toList, [], [], ["Aspirin".toList]⟩]).2.2.1
    ("aspirin".toList, "aspirin".toList) (by decide)

/-- Claim C1, amended (corrected): `analyze_medications` emits one duplicate
alert per duplicate occurrence *pair* (so `k.choose 2` alerts for an
ingredient contributed `k` times, not one per shared ingredient); each
alert's `drugs_involved` is a duplicate-free collection whose members are
exactly the names of the entries whose lower-cased ingredient lists contain
the shared ingredient, independent of input order (the code's
`list(set(...))` fixes membership, not a sorted order). -/
theorem duplicate_alerts_per_pair (meds : List MedicationData) :
    (duplicate_alerts meds).length =
      (duplicate_pairs (entered_active_ingredients meds)).length ∧
    (∀ a ∈ duplicate_alerts meds, a.drugs_involved.Nodup) ∧
    (∀ d ∈ duplicate_pairs (entered_active_ingredients meds),
      AlertOutput.mk (meds_with_ingredient meds d.1).dedup
        (duplicate_alert_message d.1) ∈ duplicate_alerts meds) ∧
    (∀ d ∈ duplicate_pairs (entered_active_ingredients meds), ∀ n,
      n ∈ (meds_with_ingredient meds d.1).dedup ↔
        ∃ m ∈ meds, m.name = n ∧ d.1 ∈ m.active_ingredients.map pyLower) := by
  refine ⟨List.length_map _ _, ?_, ?_, ?_⟩
  · intro a ha
    unfold duplicate_alerts at ha
    rw [List.mem_map] at ha
    obtain ⟨d, _, hd⟩ := ha
    rw [← hd]
    exact List.nodup_dedup _
  · intro d hd
    unfold duplicate_alerts
    rw [List.mem_map]
    exact ⟨d, hd, rfl⟩
  · intro d _ n
    rw [List.mem_dedup]
    unfold meds_with_ingredient
    rw [List.mem_map]
    constructor
    · rintro ⟨m, hm, hn⟩
      have h2 := List.mem_filter.mp hm
      exact ⟨m, h2.1, hn, by simpa using h2.2⟩
    · rintro ⟨m, hm, hn, hing⟩
      exact ⟨m, List.mem_filter.mpr ⟨hm, by simpa using hing⟩, hn⟩

/-- Witness for `duplicate_alerts_per_pair` at two entries sharing
ingredient `aspirin`. -/
theorem duplicate_alerts_per_pair_witness :
    AlertOutput.mk
        (meds_with_ingredient
          [⟨"Med1".toList, [], [], ["aspirin".toList]⟩,
           ⟨"Med2".toList, [], [], ["aspirin".toList]⟩] "aspirin".toList).dedup
        (duplicate_alert_message "aspirin".toList) ∈
      duplicate_alerts
        [⟨"Med1".toList, [], [], ["aspirin".toList]⟩,
         ⟨"Med2".toList, [], [], ["aspirin".toList]⟩] ∧
    ("Med1".toList ∈
        (meds_with_ingredient
          [⟨"Med1".toList, [], [], ["aspirin".toList]⟩,
           ⟨"Med2".toList, [], [], ["aspirin".toList]⟩] "aspirin".toList).dedup ↔
      ∃ m ∈ [⟨"Med1".toList, [], [], ["aspirin".toList]⟩,
             (⟨"Med2".toList, [], [], ["aspirin".toList]⟩ : MedicationData)],
        m.name = "Med1".toList ∧
        "aspirin".toList ∈ m.active_ingredients.map pyLower) :=
  ⟨(duplicate_alerts_per_pair
      [⟨"Med1".toList, [], [], ["aspirin".toList]⟩,
       ⟨"Med2".toList, [], [], ["aspirin".toList]⟩]).2.2.1
      ("aspirin".toList, "aspirin".toList) (by decide),
   (duplicate_alerts_per_pair
      [⟨"Med1".toList, [], [], ["aspirin".toList]⟩,
       ⟨"Med2".toList, [], [], ["aspirin".toList]⟩]).2.2.2
      ("aspirin".toList, "aspirin".toList) (by decide) "Med1".toList⟩

set_option maxRecDepth 4000 in
/-- Counterexample to claim C1 as stated: with three entries all
contributing the single shared ingredient `aspirin`, the endpoint emits
three duplicate alerts (one per duplicate occurrence pair), all carrying
the same shared-ingredient message, instead of exactly one alert for the
shared ingredient. -/
theorem duplicate_alert_grouping_cex :
    (duplicate_alerts
      [⟨"Med1".toList, [], [], ["aspirin".toList]⟩,
       ⟨"Med2".toList, [], [], ["aspirin".toList]⟩,
       ⟨"Med3".toList, [], [], ["aspirin".toList]⟩]).length = 3 ∧
    analyze_medications (fun _ _ => Except.ok [])
      [⟨"Med1".toList, [], [], ["aspirin".toList]⟩,
       ⟨"Med2".toList, [], [], ["aspirin".toList]⟩,
       ⟨"Med3".toList, [], [], ["aspirin".toList]⟩] =
      Except.ok (duplicate_alerts
        [⟨"Med1".toList, [], [], ["aspirin".toList]⟩,
         ⟨"Med2".toList, [], [], ["aspirin".toList]⟩,
         ⟨"Med3".toList, [], [], ["aspirin".toList]⟩]) ∧
    ((duplicate_alerts
      [⟨"Med1".toList, [], [], ["aspirin".toList]⟩,
       ⟨"Med2".toList, [], [], ["aspirin".toList]⟩,
       ⟨"Med3".toList, [], [], ["aspirin".toList]⟩]).map
        AlertOutput.alert_message).dedup.length = 1 ∧
    (3 : Nat) ≠ 1 := by
  refine ⟨by decide, by rfl, by decide, by decide⟩

/-- Claim C2, amended (corrected): `call_gemini` tries the configured
credentials strictly in order, returns immediately on the first credential
whose response has status 200 (later credentials untried), and never
retries a credential; but a network-level failure on a credential raises
out of the loop (later credentials untried, unlike a non-success response),
and when every credential returns a non-success response the function falls
through and returns `None` — no `ProviderError` is raised. -/
theorem call_gemini_rotation_spec (pre post : List GeminiResponse) (t : Str)
    (hpre : ∀ r ∈ pre, ∃ s u, r = GeminiResponse.http s u ∧ s ≠ 200) :
    call_gemini (pre ++ GeminiResponse.http 200 t :: post) =
      GeminiOutcome.ok t ∧
    call_gemini (pre ++ GeminiResponse.netFail :: post) = GeminiOutcome.exn ∧
    call_gemini pre = GeminiOutcome.noResult := by
  induction pre with
  | nil => exact ⟨by simp [call_gemini], by simp [call_gemini], rfl⟩
  | cons r rest ih =>
    obtain ⟨s, u, hr, hs⟩ := hpre r (List.mem_cons_self _ _)
    subst hr
    have ih2 := ih fun r hm => hpre r (List.mem_cons_of_mem _ hm)
    refine ⟨?_, ?_, ?_⟩
    · rw [List.cons_append, call_gemini, if_neg hs]
      exact ih2.1
    · rw [List.cons_append, call_gemini, if_neg hs]
      exact ih2.2.1
    · rw [call_gemini, if_neg hs]
      exact ih2.2.2

/-- Witness for `call_gemini_rotation_spec`: one failing credential before
the distinguished one. -/
theorem call_gemini_rotation_spec_witness :
    call_gemini [GeminiResponse.http 500 [],
      GeminiResponse.http 200 "alert text".toList,
      GeminiResponse.http 200 "unreached".toList] =
      GeminiOutcome.ok "alert text".toList ∧
    call_gemini [GeminiResponse.http 500 [], GeminiResponse.netFail,
      GeminiResponse.http 200 "unreached".toList] = GeminiOutcome.exn ∧
    call_gemini [GeminiResponse.http 500 []] = GeminiOutcome.noResult :=
  call_gemini_rotation_spec [GeminiResponse.http 500 []]
    [GeminiResponse.http 200 "unreached".toList] "alert text".toList
    (by
      intro r hr
      rw [List.mem_singleton] at hr
      exact ⟨500, [], hr, by decide⟩)

/-- Counterexample to claim C2 as stated: a network-level failure on the
first credential is not treated like a non-success response — the loop
aborts with the exception and the next credential (which would succeed) is
never tried; and when every credential returns a non-success response the
call ends with `None`, not a raised `ProviderError`. -/
theorem call_gemini_rotation_cex :
    call_gemini [GeminiResponse.netFail,
      GeminiResponse.http 200 "recovered".toList] = GeminiOutcome.exn ∧
    call_gemini [GeminiResponse.netFail,
      GeminiResponse.http 200 "recovered".toList] ≠
      GeminiOutcome.ok "recovered".toList ∧
    call_gemini [GeminiResponse.http 500 [], GeminiResponse.http 403 []] =
      GeminiOutcome.noResult := by
  refine ⟨rfl, by decide, rfl⟩

theorem analyze_all_pairs_eq (synth : Str → Str → Except Str Str)
    (meds : List Str) :
    analyze_all_pairs synth meds =
      (combinations2 meds).map fun p => pair_result synth p.1 p.2 := by
  induction meds with
  | nil => rfl
  | cons d rest ih =>
    rw [analyze_all_pairs, combinations2, List.map_append, ih]
    congr 1
    rw [List.map_map]
    rfl

/-- Claim C3, amended (corrected): the helper `analyze_all_pairs` does
isolate failures per pair — it returns exactly one result per unordered
index pair, a pair whose synthesis raises yields an error-tagged result
whose message names the failure (`"Error analyzing: " + reason`), and every
other pair's result is determined by its own synthesis call alone.  The
deployed `/analyze_medications` endpoint, however, performs no per-pair
recovery (see the counterexample): an exception raised during any pair's
synthesis aborts the entire batch. -/
theorem analyze_all_pairs_isolation_spec (synth : Str → Str → Except Str Str)
    (meds : List Str) :
    (analyze_all_pairs synth meds).length = (combinations2 meds).length ∧
    ∀ (k : Nat) (p : Str × Str), (combinations2 meds)[k]? = some p →
      (∀ e, synth p.1 p.2 = Except.error e →
        (analyze_all_pairs synth meds)[k]? = some
          (PairResult.mk (p.1 ++ " + ".toList ++ p.2) "Error".toList
            [p.1, p.2] ("Error analyzing: ".toList ++ e))) ∧
      (∀ t, synth p.1 p.2 = Except.ok t →
        (analyze_all_pairs synth meds)[k]? = some
          (PairResult.mk (p.1 ++ " + ".toList ++ p.2) "Interaction".toList
            [p.1, p.2] t)) := by
  rw [analyze_all_pairs_eq]
  refine ⟨List.length_map _ _, ?_⟩
  intro k p hk
  constructor
  · intro e he
    rw [List.getElem?_map, hk]
    simp only [Option.map_some']
    unfold pair_result
    rw [he]
  · intro t ht
    rw [List.getElem?_map, hk]
    simp only [Option.map_some']
    unfold pair_result
    rw [ht]

/-- Witness for `analyze_all_pairs_isolation_spec`: three medications where
synthesis raises on pairs involving `a` only — the `a + b` slot carries the
error-tagged result and the `b + c` slot its own interaction result. -/
theorem analyze_all_pairs_isolation_spec_witness :
    (analyze_all_pairs
      (fun d1 _ => if d1 = "a".toList then Except.error "boom".toList
        else Except.ok "fine".toList)
      ["a".toList, "b".toList, "c".toList])[0]? = some
        (PairResult.mk ("a".toList ++ " + ".toList ++ "b".toList)
          "Error".toList ["a".toList, "b".toList]
          ("Error analyzing: ".toList ++ "boom".toList)) ∧
    (analyze_all_pairs
      (fun d1 _ => if d1 = "a".toList then Except.error "boom".toList
        else Except.ok "fine".toList)
      ["a".toList, "b".toList, "c".toList])[2]? = some
        (PairResult.mk ("b".toList ++ " + ".toList ++ "c".toList)
          "Interaction".toList ["b".toList, "c".toList] "fine".toList) :=
  ⟨((analyze_all_pairs_isolation_spec
      (fun d1 _ => if d1 = "a".toList then Except.error "boom".toList
        else Except.ok "fine".toList)
      ["a".toList, "b".toList, "c".toList]).2 0 ("a".toList, "b".toList)
      rfl).1 "boom".toList rfl,
   ((analyze_all_pairs_isolation_spec
      (fun d1 _ => if d1 = "a".toList then Except.error "boom".toList
        else Except.ok "fine".toList)
      ["a".toList, "b".toList, "c".toList]).2 2 ("b".toList, "c".toList)
      rfl).2 "fine".toList rfl⟩

set_option maxRecDepth 4000 in
/-- Counterexample to claim C3 as stated: the deployed batch analysis call
(`/analyze_medications`) has no per-pair recovery — when synthesis raises
on the single interaction pair, the endpoint propagates the exception and
returns no alert list at all, instead of an error-tagged alert. -/
theorem analyze_medications_abort_cex :
    analyze_medications (fun _ _ => Except.error "boom".toList)
      [⟨"A".toList, [], [], ["a".toList]⟩,
       ⟨"B".toList, [], [], ["b".toList]⟩] =
      Except.error "boom".toList := by
  rfl

theorem splitComma_no_comma {x : Str} (h : ',' ∉ x) : splitComma x = [x] := by
  induction x with
  | nil => rfl
  | cons c cs ih =>
    have hc : ¬ c = ',' := fun he => h (he ▸ List.mem_cons_self c cs)
    rw [splitComma, if_neg hc, ih fun hm => h (List.mem_cons_of_mem c hm)]

theorem splitComma_append_comma {x : Str} (t : Str) (h : ',' ∉ x) :
    splitComma (x ++ ',' :: t) = x :: splitComma t := by
  induction x with
  | nil => rw [List.nil_append, splitComma, if_pos rfl]
  | cons c cs ih =>
    have hc : ¬ c = ',' := fun he => h (he ▸ List.mem_cons_self c cs)
    rw [List.cons_append, splitComma, if_neg hc,
      ih fun hm => h (List.mem_cons_of_mem c hm)]

theorem joinComma_ne_nil {xs : List Str} (h1 : xs ≠ []) (h2 : xs ≠ [[]]) :
    joinComma xs ≠ [] := by
  match xs with
  | [] => exact absurd rfl h1
  | [x] =>
    rw [joinComma]
    intro he
    exact h2 (by rw [he])
  | x :: y :: rest =>
    rw [joinComma]
    simp

theorem splitComma_joinComma {xs : List Str} (h : ∀ x ∈ xs, ',' ∉ x)
    (hne : xs ≠ []) : splitComma (joinComma xs) = xs := by
  match xs with
  | [] => exact absurd rfl hne
  | [x] => rw [joinComma]; exact splitComma_no_comma (h x (by simp))
  | x :: y :: rest =>
    rw [joinComma, splitComma_append_comma _ (h x (by simp))]
    rw [splitComma_joinComma (fun z hz => h z (List.mem_cons_of_mem x hz))
      (by simp)]

theorem load_save_ingredients (ai : List Str) (h1 : ∀ x ∈ ai, ',' ∉ x)
    (h2 : ai ≠ [[]]) :
    (if joinComma ai = [] then [] else splitComma (joinComma ai)) = ai := by
  match ai with
  | [] => rfl
  | z :: rest =>
    rw [if_neg (joinComma_ne_nil (by simp) h2)]
    exact splitComma_joinComma h1 (by simp)

/-- Claim C5, amended (corrected): saving then loading reproduces identical
`{name, dosage, frequency, active_ingredients}` tuples — with an empty
ingredient list round-tripping to an empty sequence, not `[""]` — provided
no ingredient string contains a comma and the ingredient list is not the
singleton empty string `[""]`; an ingredient containing a comma is split
into several on load, and `[""]` loads back as `[]`. -/
theorem save_load_roundtrip (meds : List MedicationData)
    (h : ∀ m ∈ meds, (∀ ai ∈ m.active_ingredients, ',' ∉ ai) ∧
      m.active_ingredients ≠ [[]]) :
    load_user_medications (save_user_medications meds) = meds := by
  unfold load_user_medications save_user_medications
  rw [List.map_map]
  induction meds with
  | nil => rfl
  | cons m rest ih =>
    rw [List.map_cons]
    obtain ⟨h1, h2⟩ := h m (List.mem_cons_self m rest)
    have hm : (⟨m.name, m.dosage, m.frequency,
        if joinComma m.active_ingredients = [] then []
        else splitComma (joinComma m.active_ingredients)⟩ : MedicationData)
        = m := by
      have := load_save_ingredients m.active_ingredients h1 h2
      rw [this]
    rw [ih fun z hz => h z (List.mem_cons_of_mem m hz)]
    exact congrArg (fun x => x :: rest) hm

/-- Witness for `save_load_roundtrip`: two comma-free records, one with an
empty ingredient list. -/
theorem save_load_roundtrip_witness :
    load_user_medications (save_user_medications
      [⟨"Aspirin Brand".toList, "81mg".toList, "daily".toList,
        ["aspirin".toList]⟩,
       ⟨"Mystery".toList, "1".toList, "daily".toList, []⟩]) =
      [⟨"Aspirin Brand".toList, "81mg".toList, "daily".toList,
        ["aspirin".toList]⟩,
       ⟨"Mystery".toList, "1".toList, "daily".toList, []⟩] :=
  save_load_roundtrip
    [⟨"Aspirin Brand".toList, "81mg".toList, "daily".toList,
      ["aspirin".toList]⟩,
     ⟨"Mystery".toList, "1".toList, "daily".toList, []⟩]
    (by decide)

/-- Counterexample to claim C5 as stated: a record whose single ingredient
contains a comma does not round-trip (it loads back as two ingredients),
and a record with ingredient list `[""]` loads back as `[]`. -/
theorem save_load_roundtrip_cex :
    load_user_medications (save_user_medications
      [⟨"A".toList, [], [], ["a,b".toList]⟩]) =
      [⟨"A".toList, [], [], ["a".toList, "b".toList]⟩] ∧
    ([⟨"A".toList, [], [], ["a".toList, "b".toList]⟩] :
        List MedicationData) ≠
      [⟨"A".toList, [], [], ["a,b".toList]⟩] ∧
    load_user_medications (save_user_medications
      [⟨"B".toList, [], [], [[]]⟩]) = [⟨"B".toList, [], [], []⟩] ∧
    ([⟨"B".toList, [], [], []⟩] : List MedicationData) ≠
      [⟨"B".toList, [], [], [[]]⟩] := by
  refine ⟨by decide, by decide, by decide, by decide⟩

theorem find_direct_match_of_exists {bm : BrandMap} {typed : Str}
    (h : ∃ kv ∈ bm, ∃ o ∈ kv.2, typed = pyLower o.display_name) :
    ∃ o, find_direct_match bm typed = some o ∧
      typed = pyLower o.display_name := by
  induction bm with
  | nil =>
    obtain ⟨kv, hkv, _⟩ := h
    exact absurd hkv (List.not_mem_nil kv)
  | cons kv rest ih =>
    unfold find_direct_match
    rw [List.findSome?_cons]
    cases hf : kv.2.find? fun option =>
        decide (typed = pyLower option.display_name) with
    | some o =>
      have h2 := List.find?_some hf
      exact ⟨o, rfl, by simpa using h2⟩
    | none =>
      obtain ⟨kv', hkv', o, ho, hp⟩ := h
      rcases List.mem_cons.mp hkv' with he | hm
      · subst he
        have h3 := List.find?_eq_none.mp hf o ho
        simp only [decide_eq_true_eq] at h3
        exact absurd hp h3
      · exact ih ⟨kv', hm, o, ho, hp⟩

/-- Claim C6 (confirmed): a typed name that case-insensitively equals some
BrandOption's display name in the disambiguation map is resolved directly
with exactly that option's active ingredients — the first matching option
in map order — for every generic-name list and every fuzzy suggester, so
the direct display-name rule precedes the brand-key, generic-name and
fuzzy-suggestion rules, and matching is exact case-insensitive equality,
not substring matching. -/
theorem direct_display_name_precedence (bm : BrandMap) (known : List Str)
    (suggest : Str → List Str) (med : MedEntry)
    (hst : med.status ≠ "resolved".toList)
    (hne : pyStrip med.name ≠ [])
    (hmatch : ∃ kv ∈ bm, ∃ o ∈ kv.2,
      pyLower (pyStrip med.name) = pyLower o.display_name) :
    ∃ o, find_direct_match bm (pyLower (pyStrip med.name)) = some o ∧
      pyLower (pyStrip med.name) = pyLower o.display_name ∧
      check_entry bm known suggest med =
        ({ med with
            name := o.display_name
            active_ingredients := o.active_ingredients
            status := "resolved".toList }, ResolveFlag.noFlag) := by
  obtain ⟨o, hfd, hp⟩ := find_direct_match_of_exists hmatch
  refine ⟨o, hfd, hp, ?_⟩
  unfold check_entry
  rw [if_neg hst, if_neg hne, hfd]

/-- Witness for `direct_display_name_precedence`: typed name `ADVIL`
matches display name `Advil` even though `advil` is also a substring of a
known generic name. -/
theorem direct_display_name_precedence_witness :
    ∃ o, find_direct_match
        [("advil".toList, [⟨"Advil".toList, ["ibuprofen".toList]⟩])]
        (pyLower (pyStrip "ADVIL".toList)) = some o ∧
      pyLower (pyStrip "ADVIL".toList) = pyLower o.display_name ∧
      check_entry
        [("advil".toList, [⟨"Advil".toList, ["ibuprofen".toList]⟩])]
        ["advil extra strength".toList] (fun _ => [])
        ⟨"ADVIL".toList, "200mg".toList, "daily".toList, [],
          "pending".toList⟩ =
        ({ name := "Advil".toList, dosage := "200mg".toList,
           frequency := "daily".toList,
           active_ingredients := ["ibuprofen".toList],
           status := "resolved".toList }, ResolveFlag.noFlag) := by
  obtain ⟨o, h1, h2, h3⟩ := direct_display_name_precedence
    [("advil".toList, [⟨"Advil".toList, ["ibuprofen".toList]⟩])]
    ["advil extra strength".toList] (fun _ => [])
    ⟨"ADVIL".toList, "200mg".toList, "daily".toList, [], "pending".toList⟩
    (by decide) (by decide) (by decide)
  have ho : o = ⟨"Advil".toList, ["ibuprofen".toList]⟩ := by
    have h4 := h1
    rw [show find_direct_match
        [("advil".toList, [⟨"Advil".toList, ["ibuprofen".toList]⟩])]
        (pyLower (pyStrip "ADVIL".toList)) =
      some ⟨"Advil".toList, ["ibuprofen".toList]⟩ from by decide] at h4
    exact (Option.some.inj h4).symm
  subst ho
  exact ⟨_, h1, h2, h3⟩

/-- Claim C7 (confirmed): an entry whose status is already `resolved` is
skipped by the checking-inputs resolution pass — re-running the pass leaves
its status and active ingredients (indeed the whole entry) unchanged and
records no candidate for it. -/
theorem resolved_entry_skip (bm : BrandMap) (known : List Str)
    (suggest : Str → List Str) (meds : List MedEntry) (i : Nat)
    (hi : i < meds.length)
    (hres : (meds.get ⟨i, hi⟩).status = "resolved".toList) :
    check_entry bm known suggest (meds.get ⟨i, hi⟩) =
      (meds.get ⟨i, hi⟩, ResolveFlag.noFlag) ∧
    (checking_inputs_pass bm known suggest meds)[i]? =
      some (meds.get ⟨i, hi⟩) := by
  have hstep : check_entry bm known suggest (meds.get ⟨i, hi⟩) =
      (meds.get ⟨i, hi⟩, ResolveFlag.noFlag) := by
    unfold check_entry
    rw [if_pos hres]
  refine ⟨hstep, ?_⟩
  unfold checking_inputs_pass
  rw [List.getElem?_map, List.getElem?_eq_getElem hi]
  simp only [Option.map_some']
  rw [List.get_eq_getElem] at hstep
  rw [hstep]
  rfl

/-- Witness for `resolved_entry_skip` at a one-entry list whose entry is
already resolved. -/
theorem resolved_entry_skip_witness :
    check_entry [] [] (fun _ => [])
      ([⟨"Advil".toList, "200mg".toList, "daily".toList,
        ["ibuprofen".toList], "resolved".toList⟩].get ⟨0, by decide⟩) =
      ([⟨"Advil".toList, "200mg".toList, "daily".toList,
        ["ibuprofen".toList], "resolved".toList⟩].get ⟨0, by decide⟩,
       ResolveFlag.noFlag) ∧
    (checking_inputs_pass [] [] (fun _ => [])
      [⟨"Advil".toList, "200mg".toList, "daily".toList,
        ["ibuprofen".toList], "resolved".toList⟩])[0]? =
      some ([⟨"Advil".toList, "200mg".toList, "daily".toList,
        ["ibuprofen".toList], "resolved".toList⟩].get ⟨0, by decide⟩) :=
  resolved_entry_skip [] [] (fun _ => [])
    [⟨"Advil".toList, "200mg".toList, "daily".toList,
      ["ibuprofen".toList], "resolved".toList⟩] 0 (by decide) (by decide)

theorem dropWhile_dropWhile_self {α : Type} (p : α → Bool) (l : List α) :
    (l.dropWhile p).dropWhile p = l.dropWhile p := by
  induction l with
  | nil => rfl
  | cons c t ih =>
    rw [List.dropWhile_cons]
    by_cases h : p c = true
    · rw [if_pos h]; exact ih
    · rw [if_neg h, List.dropWhile_cons, if_neg h]

theorem head_fails_of_dropWhile_eq_self {α : Type} {p : α → Bool} {c : α}
    {t : List α} (h : (c :: t).dropWhile p = c :: t) : p c = false := by
  by_contra hc
  rw [Bool.not_eq_false] at hc
  rw [List.dropWhile_cons, if_pos hc] at h
  have h1 := congrArg List.length h
  have h2 := (List.dropWhile_suffix p (l := t)).length_le
  simp only [List.length_cons] at h1
  omega

theorem dropWhile_prefix_of_dropWhile_eq_self {α : Type} {p : α → Bool}
    {a x : List α} (ha : a.dropWhile p = a) (hx : x <+: a) :
    x.dropWhile p = x := by
  match x with
  | [] => rfl
  | c :: y =>
    obtain ⟨t, ht⟩ := hx
    rw [List.cons_append] at ht
    subst ht
    have hc := head_fails_of_dropWhile_eq_self ha
    rw [List.dropWhile_cons, if_neg (by rw [hc]; exact Bool.false_ne_true)]

theorem pyStrip_idem (s : Str) : pyStrip (pyStrip s) = pyStrip s := by
  unfold pyStrip
  set w := Char.isWhitespace with hw
  set A := s.dropWhile w with hA
  set B := A.reverse.dropWhile w with hB
  have hAself : A.dropWhile w = A := dropWhile_dropWhile_self w s
  have hBrev_prefix : B.reverse <+: A := by
    rw [← List.reverse_reverse A]
    exact List.reverse_prefix.mpr (List.dropWhile_suffix w)
  have h1 : B.reverse.dropWhile w = B.reverse :=
    dropWhile_prefix_of_dropWhile_eq_self hAself hBrev_prefix
  rw [h1, List.reverse_reverse]
  rw [dropWhile_dropWhile_self]

theorem pyStrip_pyLower (s : Str) :
    pyStrip (pyLower s) = pyLower (pyStrip s) := by
  unfold pyStrip pyLower
  have hfun : (fun c => (Char.toLower c).isWhitespace) = Char.isWhitespace :=
    funext whitespace_toLower
  rw [List.dropWhile_map]
  rw [show (Char.isWhitespace ∘ Char.toLower) = Char.isWhitespace from hfun]
  rw [← List.map_reverse, List.dropWhile_map,
    show (Char.isWhitespace ∘ Char.toLower) = Char.isWhitespace from hfun,
    ← List.map_reverse]

theorem pyStrip_cons_space (s : Str) : pyStrip (' ' :: s) = pyStrip s := by
  unfold pyStrip
  rw [List.dropWhile_cons, if_pos (by decide)]

theorem pyStrip_clean_fix (s : Str) :
    pyStrip (pyLower (pyStrip s)) = pyLower (pyStrip s) := by
  rw [pyStrip_pyLower, pyStrip_idem]

/-- Claim C8, amended (corrected): for an interaction pair with no matching
baseline row *whose cleaned names contain no comma*, the context builder
returns exactly the title-cased string
`"No known interaction found between A and B in the system."` (not the
malformed-input message and not an exception), that non-empty context is
embedded in the Composer prompt, and the pair is still routed through the
Composer: the synthesized alert is exactly whatever the Composer returns —
non-empty and exception-free only insofar as the Composer's own reply is
(a comma in a name trips the exactly-two-names guard instead, a raising
Composer propagates, and an empty Composer reply gives an empty alert; see
the counterexample). -/
theorem lookup_miss_composed_alert (baseline_df : List InteractionRow)
    (composer : Str → Except Str Str) (drug1 drug2 t : Str)
    (h1 : ',' ∉ pyLower (pyStrip drug1))
    (h2 : ',' ∉ pyLower (pyStrip drug2))
    (hmiss : baseline_df.find? (baseline_match (pyLower (pyStrip drug1))
      (pyLower (pyStrip drug2))) = none)
    (hcomp : composer (interaction_prompt (no_known_message
      (pyLower (pyStrip drug1)) (pyLower (pyStrip drug2)))) = Except.ok t) :
    generate_geriatric_alert baseline_df
        (pyLower (pyStrip drug1) ++ ", ".toList ++ pyLower (pyStrip drug2)) =
      no_known_message (pyLower (pyStrip drug1)) (pyLower (pyStrip drug2)) ∧
    no_known_message (pyLower (pyStrip drug1))
      (pyLower (pyStrip drug2)) ≠ [] ∧
    List.IsInfix
      (no_known_message (pyLower (pyStrip drug1)) (pyLower (pyStrip drug2)))
      (interaction_prompt (no_known_message (pyLower (pyStrip drug1))
        (pyLower (pyStrip drug2)))) ∧
    analyze_interaction baseline_df composer drug1 drug2 = Except.ok t := by
  have hsplit : splitComma (pyLower (pyStrip drug1) ++ ", ".toList ++
      pyLower (pyStrip drug2)) =
      [pyLower (pyStrip drug1), ' ' :: pyLower (pyStrip drug2)] := by
    rw [List.append_assoc]
    rw [show ", ".toList ++ pyLower (pyStrip drug2) =
      ',' :: (' ' :: pyLower (pyStrip drug2)) from rfl]
    rw [splitComma_append_comma _ h1]
    rw [splitComma_no_comma (x := ' ' :: pyLower (pyStrip drug2)) (by
      intro hm
      rcases List.mem_cons.mp hm with he | hm2
      · exact absurd he (by decide)
      · exact h2 hm2)]
  have hlist : (splitComma (pyLower (pyStrip drug1) ++ ", ".toList ++
      pyLower (pyStrip drug2))).map pyStrip =
      [pyLower (pyStrip drug1), pyLower (pyStrip drug2)] := by
    rw [hsplit, List.map_cons, List.map_cons, List.map_nil,
      pyStrip_cons_space, pyStrip_clean_fix drug1, pyStrip_clean_fix drug2]
  have hred : generate_geriatric_alert baseline_df
      (pyLower (pyStrip drug1) ++ ", ".toList ++ pyLower (pyStrip drug2)) =
      match baseline_df.find? (baseline_match (pyLower (pyStrip drug1))
          (pyLower (pyStrip drug2))) with
      | none => no_known_message (pyLower (pyStrip drug1))
          (pyLower (pyStrip drug2))
      | some row => joinWith "\n".toList (interaction_alert_lines row) := by
    unfold generate_geriatric_alert
    rw [hlist]
  have hgen : generate_geriatric_alert baseline_df
      (pyLower (pyStrip drug1) ++ ", ".toList ++ pyLower (pyStrip drug2)) =
      no_known_message (pyLower (pyStrip drug1)) (pyLower (pyStrip drug2)) := by
    rw [hred, hmiss]
  refine ⟨hgen, ?_, ?_, ?_⟩
  · simp [no_known_message]
  · exact ⟨"\n#Task\nYou are a clear, calm, and professional assistant who explains drug interactions in a way that is easy for older adults to understand.\n#Step1\nUse this information to get the medical interaction details in your response: ".toList,
      "\n#Step2\nThink step-by-step:\n- What is the severity?\n- What does each drug do?\n- What are the important mechanisms, risks, or side effects?\n#Step3\nSummarize this in plain language, starting with the key risk.\nAvoid casual or conversational fillers. Use short, clear sentences. Do not start with \x27Okay\x27 or \x27Let\x27s break it down.\x27\nFinish with a gentle reminder to talk to a healthcare provider.\n".toList,
      rfl⟩
  · show composer (interaction_prompt (generate_geriatric_alert baseline_df
      (pyLower (pyStrip drug1) ++ ", ".toList ++
        pyLower (pyStrip drug2)))) = Except.ok t
    rw [hgen]
    exact hcomp

/-- Witness for `lookup_miss_composed_alert`: an empty baseline table, a
concrete pair, and an echoing composer. -/
theorem lookup_miss_composed_alert_witness :
    generate_geriatric_alert []
        (pyLower (pyStrip "warfarin".toList) ++ ", ".toList ++
          pyLower (pyStrip "ibuprofen".toList)) =
      no_known_message (pyLower (pyStrip "warfarin".toList))
        (pyLower (pyStrip "ibuprofen".toList)) ∧
    no_known_message (pyLower (pyStrip "warfarin".toList))
      (pyLower (pyStrip "ibuprofen".toList)) ≠ [] ∧
    List.IsInfix
      (no_known_message (pyLower (pyStrip "warfarin".toList))
        (pyLower (pyStrip "ibuprofen".toList)))
      (interaction_prompt (no_known_message
        (pyLower (pyStrip "warfarin".toList))
        (pyLower (pyStrip "ibuprofen".toList)))) ∧
    analyze_interaction [] (fun p => Except.ok p) "warfarin".toList
        "ibuprofen".toList =
      Except.ok (interaction_prompt (no_known_message
        (pyLower (pyStrip "warfarin".toList))
        (pyLower (pyStrip "ibuprofen".toList)))) :=
  lookup_miss_composed_alert [] (fun p => Except.ok p) "warfarin".toList
    "ibuprofen".toList
    (interaction_prompt (no_known_message
      (pyLower (pyStrip "warfarin".toList))
      (pyLower (pyStrip "ibuprofen".toList))))
    (by decide) (by decide) rfl rfl

/-- Counterexample to claim C8 as stated: the claim quantifies over every
interaction pair with no matching record, but (a) for the pair
`("a,b", "c")` — no record matches the empty table — the comma in the
ingredient name trips the exactly-two-names guard, so the context is the
malformed-input message, not the claimed no-known-interaction string;
(b) a Composer whose provider raises propagates the exception, so no alert
is produced; and (c) a Composer returning the empty string yields an empty
alert. -/
theorem lookup_miss_composed_alert_cex :
    generate_geriatric_alert []
        (pyLower (pyStrip "a,b".toList) ++ ", ".toList ++
          pyLower (pyStrip "c".toList)) =
      "Please provide exactly two drug names, separated by a comma.".toList ∧
    generate_geriatric_alert []
        (pyLower (pyStrip "a,b".toList) ++ ", ".toList ++
          pyLower (pyStrip "c".toList)) ≠
      no_known_message (pyLower (pyStrip "a,b".toList))
        (pyLower (pyStrip "c".toList)) ∧
    analyze_interaction [] (fun _ => Except.error "network down".toList)
        "warfarin".toList "ibuprofen".toList =
      Except.error "network down".toList ∧
    analyze_interaction [] (fun _ => Except.ok [])
        "warfarin".toList "ibuprofen".toList = Except.ok [] := by
  refine ⟨by decide, by decide, rfl, rfl⟩

theorem interaction_alerts_loop_ok (f : Str → Str → Str)
    (meds : List MedicationData) :
    interaction_alerts_loop (fun a b => Except.ok (f a b)) meds =
      Except.ok ((interaction_pairs (entered_active_ingredients meds)).map
        fun q => interaction_alert (f q.1 q.2) meds q) := by
  unfold interaction_alerts_loop
  generalize interaction_pairs (entered_active_ingredients meds) = l
  induction l with
  | nil => rfl
  | cons p rest ih =>
    rw [List.mapM_cons, List.map_cons, ih]
    rfl

/-- Claim C10 (confirmed): in `analyze_medications`, each side of an
interaction alert's `drugs_involved` is the `" / "`-joined list of the
names of every input medication whose lower-cased ingredient list contains
that side's ingredient; a combination-product entry containing both
ingredients of the pair therefore appears on both sides, and an entry name
is repeated within one side when several medication records match. -/
theorem interaction_drugs_involved_spec :
    (∀ (f : Str → Str → Str) (meds : List MedicationData),
      analyze_medications (fun a b => Except.ok (f a b)) meds =
        Except.ok (duplicate_alerts meds ++
          (interaction_pairs (entered_active_ingredients meds)).map
            fun q => interaction_alert (f q.1 q.2) meds q)) ∧
    (∀ (meds : List MedicationData) (msg : Str) (p : Str × Str),
      (interaction_alert msg meds p).drugs_involved =
        [joinWith " / ".toList (meds_with_ingredient meds p.1),
         joinWith " / ".toList (meds_with_ingredient meds p.2)]) ∧
    (∀ (meds : List MedicationData) (x n : Str),
      n ∈ meds_with_ingredient meds x ↔
        ∃ m ∈ meds, m.name = n ∧ x ∈ m.active_ingredients.map pyLower) ∧
    (∀ (meds : List MedicationData) (p : Str × Str) (m : MedicationData),
      m ∈ meds → p.1 ∈ m.active_ingredients.map pyLower →
      p.2 ∈ m.active_ingredients.map pyLower →
      m.name ∈ meds_with_ingredient meds p.1 ∧
      m.name ∈ meds_with_ingredient meds p.2) ∧
    meds_with_ingredient
      [⟨"Combo".toList, [], [], ["a".toList, "b".toList]⟩,
       ⟨"Combo".toList, [], [], ["a".toList, "c".toList]⟩] "a".toList =
      ["Combo".toList, "Combo".toList] := by
  have hmem : ∀ (meds : List MedicationData) (x n : Str),
      n ∈ meds_with_ingredient meds x ↔
        ∃ m ∈ meds, m.name = n ∧ x ∈ m.active_ingredients.map pyLower := by
    intro meds x n
    unfold meds_with_ingredient
    rw [List.mem_map]
    constructor
    · rintro ⟨m, hm, hn⟩
      have h2 := List.mem_filter.mp hm
      exact ⟨m, h2.1, hn, by simpa using h2.2⟩
    · rintro ⟨m, hm, hn, hing⟩
      exact ⟨m, List.mem_filter.mpr ⟨hm, by simpa using hing⟩, hn⟩
  refine ⟨?_, ?_, hmem, ?_, by decide⟩
  · intro f meds
    unfold analyze_medications
    rw [interaction_alerts_loop_ok]
    rfl
  · intro meds msg p
    rfl
  · intro meds p m hm h1 h2
    exact ⟨(hmem meds p.1 m.name).mpr ⟨m, hm, rfl, h1⟩,
      (hmem meds p.2 m.name).mpr ⟨m, hm, rfl, h2⟩⟩

/-- Witness for `interaction_drugs_involved_spec`: a combination product
containing both sides of the pair. -/
theorem interaction_drugs_involved_spec_witness :
    ("ComboMed".toList : Str) ∈ meds_with_ingredient
      [⟨"ComboMed".toList, [], [], ["a".toList, "b".toList]⟩]
      ("a".toList, "b".toList).1 ∧
    ("ComboMed".toList : Str) ∈ meds_with_ingredient
      [⟨"ComboMed".toList, [], [], ["a".toList, "b".toList]⟩]
      ("a".toList, "b".toList).2 :=
  interaction_drugs_involved_spec.2.2.2.1
    [⟨"ComboMed".toList, [], [], ["a".toList, "b".toList]⟩]
    ("a".toList, "b".toList)
    ⟨"ComboMed".toList, [], [], ["a".toList, "b".toList]⟩
    (by decide) (by decide) (by decide)
